import Mathlib

/-!
Shallow embedding of the UDP voice-relay core of the repository
(`src/backend/src/audio/{packet,server,state,auth}.rs`), together with
theorems settling the specification claims about it.

Bytes are modelled as `Nat` values below 256, byte buffers as `List Nat`,
machine integers as `Nat` with explicit truncation where the source
truncates, `Instant` as a `Nat` clock, and the fallible Rust functions as
`Except`/`Option`-returning Lean functions.  `HashMap`s are modelled as
association lists with insert-replace semantics.
-/

namespace WhisperFleet

/-- Big-endian encoding of `n` into `k` bytes, truncating to the low
`8*k` bits exactly as `to_be_bytes` / `write_uN::<BigEndian>` do. -/
def natToBe : Nat → Nat → List Nat
  | 0, _ => []
  | k + 1, n => natToBe k (n / 256) ++ [n % 256]

/-- Big-endian decoding of a byte list (`from_be_bytes` / `read_uN`). -/
def beToNat (bs : List Nat) : Nat :=
  bs.foldl (fun a b => a * 256 + b) 0

/-- `PacketError` from `packet.rs`.  The `Io` constructor stands for the
`Io(std::io::Error)` variant produced when a cursor read hits EOF. -/
inductive PacketError where
  | InvalidSize
  | InvalidPacketType
  | MissingToken
  | MissingAudioData
  | MissingMuteState
  | MissingErrorMessage
  | InvalidUtf8
  | InvalidJson
  | Io
  | InvalidVoicePacket (msg : String)
deriving DecidableEq

/-- `Cursor::read_exact` for `k` bytes: returns the bytes read and the
rest of the stream, or an I/O error when fewer than `k` bytes remain. -/
def readExact (k : Nat) (d : List Nat) : Except PacketError (List Nat × List Nat) :=
  if k ≤ d.length then Except.ok (d.take k, d.drop k) else Except.error PacketError.Io

/-- `PacketType` from `packet.rs` (`Handshake = 0x01` … `Ack = 0x08`). -/
inductive PacketType where
  | Handshake
  | Audio
  | JoinChannel
  | LeaveChannel
  | SetMute
  | Heartbeat
  | Error
  | Ack
deriving DecidableEq

def PacketType.to_u8 : PacketType → Nat
  | .Handshake => 1
  | .Audio => 2
  | .JoinChannel => 3
  | .LeaveChannel => 4
  | .SetMute => 5
  | .Heartbeat => 6
  | .Error => 7
  | .Ack => 8

def PacketType.from_u8 (v : Nat) : Option PacketType :=
  if v = 1 then some .Handshake
  else if v = 2 then some .Audio
  else if v = 3 then some .JoinChannel
  else if v = 4 then some .LeaveChannel
  else if v = 5 then some .SetMute
  else if v = 6 then some .Heartbeat
  else if v = 7 then some .Error
  else if v = 8 then some .Ack
  else none

/-- `PacketHeader` from `packet.rs`: type tag, `u32` sequence, 8-byte
user id, 4-byte channel id, `u32` timestamp. -/
structure PacketHeader where
  packet_type : PacketType
  sequence : Nat
  user_id : List Nat
  channel_id : List Nat
  timestamp : Nat
deriving DecidableEq

/-- `PacketHeader::SIZE` as declared in the source.  Note that the
serialized header is in fact `1 + 4 + 8 + 4 + 4 = 21` bytes. -/
def PacketHeader.SIZE : Nat := 16

/-- Copy the first `k` bytes of `s` into a `k`-byte zeroed array
(the fixed-width id fields of `PacketHeader::new`). -/
def padBytes (s : List Nat) (k : Nat) : List Nat :=
  s.take k ++ List.replicate (k - (s.take k).length) 0

def PacketHeader.new (packet_type : PacketType) (sequence : Nat)
    (user_id channel_id : List Nat) (timestamp : Nat) : PacketHeader :=
  { packet_type := packet_type
    sequence := sequence
    user_id := padBytes user_id 8
    channel_id := padBytes channel_id 4
    timestamp := timestamp }

/-- `PacketHeader::to_bytes`: tag, big-endian sequence, raw id bytes,
big-endian timestamp (21 bytes in total). -/
def PacketHeader.to_bytes (h : PacketHeader) : List Nat :=
  h.packet_type.to_u8 :: (natToBe 4 h.sequence ++ h.user_id ++ h.channel_id ++ natToBe 4 h.timestamp)

/-- `PacketHeader::from_bytes`: checks `data.len() >= SIZE` and then reads
`1 + 4 + 8 + 4 + 4` bytes through a cursor, so it fails with an I/O error
whenever the input slice is shorter than 21 bytes. -/
def PacketHeader.from_bytes (data : List Nat) : Except PacketError PacketHeader := do
  if data.length < PacketHeader.SIZE then
    throw PacketError.InvalidSize
  else
    let (tb, r1) ← readExact 1 data
    let pt ← match PacketType.from_u8 (tb.headD 0) with
      | some pt => Except.ok pt
      | none => Except.error PacketError.InvalidPacketType
    let (sb, r2) ← readExact 4 r1
    let (ub, r3) ← readExact 8 r2
    let (cb, r4) ← readExact 4 r3
    let (tsb, _) ← readExact 4 r4
    Except.ok
      { packet_type := pt
        sequence := beToNat sb
        user_id := ub
        channel_id := cb
        timestamp := beToNat tsb }

/-- UTF-8 validity of a byte sequence, modelling `String::from_utf8`
succeeding (RFC 3629 well-formedness). -/
def validUtf8 : List Nat → Bool
  | [] => true
  | b :: rest =>
    if b < 0x80 then validUtf8 rest
    else if b < 0xC2 then false
    else if b < 0xE0 then
      match rest with
      | c1 :: r => decide (0x80 ≤ c1 ∧ c1 ≤ 0xBF) && validUtf8 r
      | [] => false
    else if b < 0xF0 then
      match rest with
      | c1 :: c2 :: r =>
        let lo : Nat := if b = 0xE0 then 0xA0 else 0x80
        let hi : Nat := if b = 0xED then 0x9F else 0xBF
        decide (lo ≤ c1 ∧ c1 ≤ hi) && decide (0x80 ≤ c2 ∧ c2 ≤ 0xBF) && validUtf8 r
      | _ => false
    else if b < 0xF5 then
      match rest with
      | c1 :: c2 :: c3 :: r =>
        let lo : Nat := if b = 0xF0 then 0x90 else 0x80
        let hi : Nat := if b = 0xF4 then 0x8F else 0xBF
        decide (lo ≤ c1 ∧ c1 ≤ hi) && decide (0x80 ≤ c2 ∧ c2 ≤ 0xBF) &&
          decide (0x80 ≤ c3 ∧ c3 ≤ 0xBF) && validUtf8 r
      | _ => false
    else false

/-- `HandshakeData` from `packet.rs` (`{token, channel_id}`), with the
string fields kept as their UTF-8 byte sequences. -/
structure HandshakeData where
  token : List Nat
  channel_id : List Nat
deriving DecidableEq

/-- Lower-case hexadecimal digit byte. -/
def hexDigitByte (n : Nat) : Nat :=
  if n < 10 then 48 + n else 87 + n

/-- serde_json escaping of one byte of JSON string content: quote and
backslash are escaped, control characters use the short escapes or
`\u00XX`, all other bytes pass through. -/
def escapeJsonByte (b : Nat) : List Nat :=
  if b = 34 then [92, 34]
  else if b = 92 then [92, 92]
  else if b = 8 then [92, 98]
  else if b = 9 then [92, 116]
  else if b = 10 then [92, 110]
  else if b = 12 then [92, 102]
  else if b = 13 then [92, 114]
  else if b < 32 then [92, 117, 48, 48, hexDigitByte (b / 16), hexDigitByte (b % 16)]
  else [b]

/-- A JSON string literal: quote, escaped content, quote. -/
def jsonStringBytes (s : List Nat) : List Nat :=
  34 :: (s.map escapeJsonByte).flatten ++ [34]

/-- The UTF-8 bytes of the field name `token`. -/
def tokenKeyBytes : List Nat := [116, 111, 107, 101, 110]

/-- The UTF-8 bytes of the field name `channel_id`. -/
def channelKeyBytes : List Nat := [99, 104, 97, 110, 110, 101, 108, 95, 105, 100]

/-- Model of `serde_json::to_string` on `HandshakeData`: the canonical
serialization with the fields in declaration order and no whitespace. -/
def handshakeJsonBytes (h : HandshakeData) : List Nat :=
  123 :: (jsonStringBytes tokenKeyBytes ++ [58] ++ jsonStringBytes h.token ++ [44] ++
    jsonStringBytes channelKeyBytes ++ [58] ++ jsonStringBytes h.channel_id) ++ [125]

/-- Value of one hexadecimal digit byte, if any. -/
def unhexDigit (b : Nat) : Option Nat :=
  if 48 ≤ b ∧ b ≤ 57 then some (b - 48)
  else if 97 ≤ b ∧ b ≤ 102 then some (b - 87)
  else if 65 ≤ b ∧ b ≤ 70 then some (b - 55)
  else none

/-- Parse the content of a JSON string literal after its opening quote:
returns the unescaped content bytes and the rest of the input after the
closing quote.  `\u00XX` escapes are accepted for ASCII code points. -/
def parseJsonStringContent : List Nat → Option (List Nat × List Nat)
  | [] => none
  | 34 :: rest => some ([], rest)
  | 92 :: rest =>
    match rest with
    | 34 :: r => (parseJsonStringContent r).map (fun p => (34 :: p.1, p.2))
    | 92 :: r => (parseJsonStringContent r).map (fun p => (92 :: p.1, p.2))
    | 47 :: r => (parseJsonStringContent r).map (fun p => (47 :: p.1, p.2))
    | 98 :: r => (parseJsonStringContent r).map (fun p => (8 :: p.1, p.2))
    | 116 :: r => (parseJsonStringContent r).map (fun p => (9 :: p.1, p.2))
    | 110 :: r => (parseJsonStringContent r).map (fun p => (10 :: p.1, p.2))
    | 102 :: r => (parseJsonStringContent r).map (fun p => (12 :: p.1, p.2))
    | 114 :: r => (parseJsonStringContent r).map (fun p => (13 :: p.1, p.2))
    | 117 :: h1 :: h2 :: h3 :: h4 :: r =>
      match unhexDigit h1, unhexDigit h2, unhexDigit h3, unhexDigit h4 with
      | some d1, some d2, some d3, some d4 =>
        let code := ((d1 * 16 + d2) * 16 + d3) * 16 + d4
        if code < 0x80 then
          (parseJsonStringContent r).map (fun p => (code :: p.1, p.2))
        else none
      | _, _, _, _ => none
    | _ => none
  | b :: rest =>
    if b < 32 then none
    else (parseJsonStringContent rest).map (fun p => (b :: p.1, p.2))

/-- Model of `serde_json::from_str::<HandshakeData>` restricted to the
canonical serialization produced by `handshakeJsonBytes` (field order
`token`, `channel_id`, no whitespace). -/
def parseHandshakeJsonBytes (d : List Nat) : Option HandshakeData :=
  let p1 : List Nat := 123 :: (jsonStringBytes tokenKeyBytes ++ [58, 34])
  if d.take p1.length = p1 then
    match parseJsonStringContent (d.drop p1.length) with
    | some (tok, r1) =>
      let p2 : List Nat := 44 :: (jsonStringBytes channelKeyBytes ++ [58, 34])
      if r1.take p2.length = p2 then
        match parseJsonStringContent (r1.drop p2.length) with
        | some (chan, r2) =>
          if r2 = [125] then some { token := tok, channel_id := chan } else none
        | none => none
      else none
    | none => none
  else none

/-- `AudioPacket` from `packet.rs`. -/
structure AudioPacket where
  header : PacketHeader
  jwt_token : Option (List Nat)
  handshake_data : Option HandshakeData
  audio_data : Option (List Nat)
  mute_state : Option Bool
  error_message : Option (List Nat)
deriving DecidableEq

/-- `AudioPacket::ack(user_id, channel_id, sequence)` with the wall-clock
timestamp passed explicitly. -/
def AudioPacket.ack (user_id channel_id : List Nat) (sequence timestamp : Nat) : AudioPacket :=
  { header := PacketHeader.new PacketType.Ack sequence user_id channel_id timestamp
    jwt_token := none
    handshake_data := none
    audio_data := none
    mute_state := none
    error_message := none }

/-- `AudioPacket::to_bytes`: header followed by the type-specific body
(16-bit length-prefixed payload for Handshake/Audio/Error, one byte for
SetMute, nothing otherwise). -/
def AudioPacket.to_bytes (p : AudioPacket) : Except PacketError (List Nat) :=
  let hdr := p.header.to_bytes
  match p.header.packet_type with
  | PacketType.Handshake =>
    match p.handshake_data with
    | some h =>
      let j := handshakeJsonBytes h
      Except.ok (hdr ++ natToBe 2 j.length ++ j)
    | none =>
      match p.jwt_token with
      | some t => Except.ok (hdr ++ natToBe 2 t.length ++ t)
      | none => Except.error PacketError.MissingToken
  | PacketType.Audio =>
    match p.audio_data with
    | some a => Except.ok (hdr ++ natToBe 2 a.length ++ a)
    | none => Except.error PacketError.MissingAudioData
  | PacketType.SetMute =>
    match p.mute_state with
    | some m => Except.ok (hdr ++ [if m then 1 else 0])
    | none => Except.error PacketError.MissingMuteState
  | PacketType.Error =>
    match p.error_message with
    | some e => Except.ok (hdr ++ natToBe 2 e.length ++ e)
    | none => Except.error PacketError.MissingErrorMessage
  | _ => Except.ok hdr

/-- `AudioPacket::from_bytes`: parses the header from `data[..SIZE]`
(a 16-byte slice, although the header serialization is 21 bytes) and the
body from a cursor over `data[SIZE..]`. -/
def AudioPacket.from_bytes (data : List Nat) : Except PacketError AudioPacket := do
  if data.length < PacketHeader.SIZE then
    throw PacketError.InvalidSize
  else
    let header ← PacketHeader.from_bytes (data.take PacketHeader.SIZE)
    let body := data.drop PacketHeader.SIZE
    match header.packet_type with
    | PacketType.Handshake =>
      let (lb, r1) ← readExact 2 body
      let (payload, _) ← readExact (beToNat lb) r1
      if validUtf8 payload then
        match parseHandshakeJsonBytes payload with
        | some h =>
          Except.ok
            { header := header, jwt_token := none, handshake_data := some h
              audio_data := none, mute_state := none, error_message := none }
        | none =>
          Except.ok
            { header := header, jwt_token := some payload, handshake_data := none
              audio_data := none, mute_state := none, error_message := none }
      else
        throw PacketError.InvalidUtf8
    | PacketType.Audio =>
      let (lb, r1) ← readExact 2 body
      let (audio, _) ← readExact (beToNat lb) r1
      Except.ok
        { header := header, jwt_token := none, handshake_data := none
          audio_data := some audio, mute_state := none, error_message := none }
    | PacketType.SetMute =>
      let (mb, _) ← readExact 1 body
      Except.ok
        { header := header, jwt_token := none, handshake_data := none
          audio_data := none, mute_state := some (decide (mb.headD 0 ≠ 0))
          error_message := none }
    | PacketType.Error =>
      let (lb, r1) ← readExact 2 body
      let (msg, _) ← readExact (beToNat lb) r1
      if validUtf8 msg then
        Except.ok
          { header := header, jwt_token := none, handshake_data := none
            audio_data := none, mute_state := none, error_message := some msg }
      else
        throw PacketError.InvalidUtf8
    | _ =>
      Except.ok
        { header := header, jwt_token := none, handshake_data := none
          audio_data := none, mute_state := none, error_message := none }

/-- Binary Opus voice packet from `packet.rs`. -/
structure VoicePacket where
  packet_type : Nat
  sequence_number : Nat
  timestamp : Nat
  payload : List Nat
deriving DecidableEq

/-- `VoicePacket::HEADER_SIZE` (1 + 4 + 8 + 2 = 15 bytes). -/
def VoicePacket.HEADER_SIZE : Nat := 15

/-- `VoicePacket::VOICE_PACKET_TYPE` (0x01). -/
def VoicePacket.VOICE_PACKET_TYPE : Nat := 1

/-- `VoicePacket::from_bytes`: fixed 15-byte header, then exactly
`payload_length` payload bytes. -/
def VoicePacket.from_bytes (data : List Nat) : Except PacketError VoicePacket :=
  if data.length < VoicePacket.HEADER_SIZE then
    Except.error (PacketError.InvalidVoicePacket "Packet too short")
  else
    let packet_type := data.headD 0
    if packet_type ≠ VoicePacket.VOICE_PACKET_TYPE then
      Except.error (PacketError.InvalidVoicePacket "Invalid packet type")
    else
      let sequence_number := beToNat ((data.drop 1).take 4)
      let timestamp := beToNat ((data.drop 5).take 8)
      let payload_length := beToNat ((data.drop 13).take 2)
      if data.length ≠ VoicePacket.HEADER_SIZE + payload_length then
        Except.error (PacketError.InvalidVoicePacket "Payload length mismatch")
      else
        Except.ok
          { packet_type := packet_type
            sequence_number := sequence_number
            timestamp := timestamp
            payload := data.drop 15 }

/-- `VoicePacket::to_bytes`. -/
def VoicePacket.to_bytes (p : VoicePacket) : List Nat :=
  p.packet_type :: (natToBe 4 p.sequence_number ++ natToBe 8 p.timestamp ++
    natToBe 2 p.payload.length ++ p.payload)

/-- `JitterBufferEntry` from `server.rs`, with `received_at` an instant
on a `Nat` millisecond clock. -/
structure JitterBufferEntry where
  sequence_number : Nat
  timestamp : Nat
  payload : List Nat
  received_at : Nat
deriving DecidableEq

/-- `JitterBuffer` from `server.rs`; the `VecDeque` is a list whose head
is the front of the deque. -/
structure JitterBuffer where
  entries : List JitterBufferEntry
  last_played_sequence : Nat
  max_size : Nat
  window_ms : Nat
deriving DecidableEq

/-- `JitterBuffer::new`. -/
def JitterBuffer.new (max_size window_ms : Nat) : JitterBuffer :=
  { entries := [], last_played_sequence := 0, max_size := max_size, window_ms := window_ms }

/-- Insertion keeping entries ordered by ascending sequence number;
`none` on a duplicate.  This mirrors `binary_search_by` on the
sequence-sorted deque: `Ok` (duplicate) rejects, `Err(pos)` inserts at
`pos`. -/
def insertSorted (e : JitterBufferEntry) : List JitterBufferEntry → Option (List JitterBufferEntry)
  | [] => some [e]
  | x :: xs =>
    if e.sequence_number < x.sequence_number then some (e :: x :: xs)
    else if e.sequence_number = x.sequence_number then none
    else (insertSorted e xs).map (fun l => x :: l)

/-- `JitterBuffer::insert`: reject stale sequences, reject when the
buffer is full and the packet is older than the front timestamp plus the
window, reject duplicates, otherwise insert in sequence order.  Returns
the new buffer and whether the entry was accepted. -/
def JitterBuffer.insert (b : JitterBuffer) (e : JitterBufferEntry) : JitterBuffer × Bool :=
  if e.sequence_number ≤ b.last_played_sequence then (b, false)
  else
    let oldest_timestamp := ((b.entries.head?).map (fun x => x.timestamp)).getD 0
    if b.entries.length ≥ b.max_size ∧ e.timestamp < oldest_timestamp + b.window_ms then
      (b, false)
    else
      match insertSorted e b.entries with
      | none => (b, false)
      | some l => ({ b with entries := l }, true)

/-- `JitterBuffer::pop_next`: pops the front entry iff its sequence
number equals `last_played_sequence + 1`, advancing
`last_played_sequence`. -/
def JitterBuffer.pop_next (b : JitterBuffer) : Option JitterBufferEntry × JitterBuffer :=
  match b.entries with
  | [] => (none, b)
  | e :: rest =>
    if e.sequence_number = b.last_played_sequence + 1 then
      (some e, { b with entries := rest, last_played_sequence := e.sequence_number })
    else
      (none, b)

/-- The front-removal loop of `JitterBuffer::cleanup`: pops front entries
whose age exceeds `max_age_ms`, stopping at the first fresh entry. -/
def cleanupFront (now max_age_ms : Nat) : List JitterBufferEntry → List JitterBufferEntry
  | [] => []
  | e :: rest =>
    if now - e.received_at > max_age_ms then cleanupFront now max_age_ms rest
    else e :: rest

/-- `JitterBuffer::cleanup`. -/
def JitterBuffer.cleanup (b : JitterBuffer) (now max_age_ms : Nat) : JitterBuffer :=
  { b with entries := cleanupFront now max_age_ms b.entries }

/-- The operations a jitter buffer undergoes. -/
inductive JBOp where
  | ins (e : JitterBufferEntry)
  | pop
  | clean (now max_age_ms : Nat)
deriving DecidableEq

/-- Apply one operation to a jitter buffer. -/
def JitterBuffer.applyOp (b : JitterBuffer) : JBOp → JitterBuffer
  | JBOp.ins e => (b.insert e).1
  | JBOp.pop => (b.pop_next).2
  | JBOp.clean now m => b.cleanup now m

/-- Run a sequence of operations on a jitter buffer. -/
def JitterBuffer.runOps (b : JitterBuffer) (ops : List JBOp) : JitterBuffer :=
  ops.foldl JitterBuffer.applyOp b

/-- An operation is valid when any inserted entry carries a `u32`
sequence number, as every entry parsed off the wire does. -/
def JBOp.valid : JBOp → Prop
  | JBOp.ins e => e.sequence_number < 2 ^ 32
  | _ => True

/-- `HashMap::insert` on an association-list model: the new binding
replaces any existing binding for the key. -/
def mapInsert {α β : Type} [DecidableEq α] (k : α) (v : β) (m : List (α × β)) : List (α × β) :=
  (k, v) :: m.filter (fun p => decide (p.1 ≠ k))

/-- `HashMap::remove` on the association-list model. -/
def mapRemove {α β : Type} [DecidableEq α] (k : α) (m : List (α × β)) : List (α × β) :=
  m.filter (fun p => decide (p.1 ≠ k))

/-- `HashMap::get` on the association-list model. -/
def mapFind {α β : Type} [DecidableEq α] (k : α) (m : List (α × β)) : Option β :=
  (m.find? (fun p => decide (p.1 = k))).map Prod.snd

/-- `Role` from `routes/channels.rs`. -/
inductive Role where
  | Owner
  | Moderator
  | Member
deriving DecidableEq

/-- `AudioUserState` from `state.rs`, with instants on a `Nat` clock. -/
structure AudioUserState where
  user_id : String
  username : String
  channel_id : String
  socket_addr : Nat
  is_muted : Bool
  is_speaking : Bool
  last_activity : Nat
  sequence_number : Nat
  role : Role
deriving DecidableEq

/-- `AudioUserState::new`. -/
def AudioUserState.new (user_id username channel_id : String) (socket_addr : Nat)
    (role : Role) (now : Nat) : AudioUserState :=
  { user_id := user_id, username := username, channel_id := channel_id
    socket_addr := socket_addr, is_muted := false, is_speaking := false
    last_activity := now, sequence_number := 0, role := role }

/-- `AudioUserState::update_activity`. -/
def AudioUserState.update_activity (u : AudioUserState) (now : Nat) : AudioUserState :=
  { u with last_activity := now }

/-- `AudioUserState::is_expired`: elapsed time since the last activity
exceeds the timeout. -/
def AudioUserState.is_expired (u : AudioUserState) (now timeout : Nat) : Bool :=
  decide (now - u.last_activity > timeout)

/-- `ChannelState` from `state.rs`: the per-channel user table and the
`socket_addr -> user_id` inverse index. -/
structure ChannelState where
  channel_id : String
  users : List (String × AudioUserState)
  user_socket_map : List (Nat × String)
  last_activity : Nat
deriving DecidableEq

/-- `ChannelState::new`. -/
def ChannelState.new (channel_id : String) (now : Nat) : ChannelState :=
  { channel_id := channel_id, users := [], user_socket_map := [], last_activity := now }

/-- `ChannelState::add_user`. -/
def ChannelState.add_user (c : ChannelState) (u : AudioUserState) (now : Nat) : ChannelState :=
  { c with
    users := mapInsert u.user_id u c.users
    user_socket_map := mapInsert u.socket_addr u.user_id c.user_socket_map
    last_activity := now }

/-- `ChannelState::remove_user`. -/
def ChannelState.remove_user (c : ChannelState) (user_id : String) (now : Nat) :
    ChannelState × Option AudioUserState :=
  match mapFind user_id c.users with
  | some u =>
    ({ c with
        users := mapRemove user_id c.users
        user_socket_map := mapRemove u.socket_addr c.user_socket_map
        last_activity := now }, some u)
  | none => (c, none)

/-- `ChannelState::get_user_by_socket`. -/
def ChannelState.get_user_by_socket (c : ChannelState) (addr : Nat) : Option AudioUserState :=
  match mapFind addr c.user_socket_map with
  | some uid => mapFind uid c.users
  | none => none

/-- `ChannelState::get_users_except`. -/
def ChannelState.get_users_except (c : ChannelState) (exclude_user_id : String) :
    List AudioUserState :=
  (c.users.map Prod.snd).filter (fun u => decide (u.user_id ≠ exclude_user_id))

/-- `ChannelState::get_unmuted_users_except`. -/
def ChannelState.get_unmuted_users_except (c : ChannelState) (exclude_user_id : String) :
    List AudioUserState :=
  (c.users.map Prod.snd).filter (fun u => decide (u.user_id ≠ exclude_user_id) && !u.is_muted)

/-- `ChannelState::set_user_mute`. -/
def ChannelState.set_user_mute (c : ChannelState) (user_id : String) (muted : Bool)
    (now : Nat) : ChannelState × Bool :=
  match mapFind user_id c.users with
  | some u =>
    ({ c with users := mapInsert user_id ((AudioUserState.update_activity { u with is_muted := muted } now)) c.users }, true)
  | none => (c, false)

/-- `ChannelState::is_empty`. -/
def ChannelState.is_empty (c : ChannelState) : Bool :=
  c.users.isEmpty

/-- `ChannelState::cleanup_expired_users`: first removes the expired
users from `users` via `retain`, and only afterwards walks the expired
ids looking each one up in `users` (where it is no longer present) to
prune `user_socket_map` — so the socket-map entries of expired users are
never removed. -/
def ChannelState.cleanup_expired_users (c : ChannelState) (now timeout : Nat) :
    ChannelState × List String :=
  let expired := (c.users.filter (fun p => p.2.is_expired now timeout)).map Prod.fst
  let usersKept := c.users.filter (fun p => !(p.2.is_expired now timeout))
  let sockMap := expired.foldl
    (fun m uid =>
      match mapFind uid usersKept with
      | some u => mapRemove u.socket_addr m
      | none => m)
    c.user_socket_map
  ({ c with users := usersKept, user_socket_map := sockMap }, expired)

/-- `AudioStateManager` from `state.rs`: the channel table and the
`user_id -> channel_id` index. -/
structure AudioStateManager where
  channels : List (String × ChannelState)
  user_channels : List (String × String)
deriving DecidableEq

/-- `AudioStateManager::new` (tables empty). -/
def AudioStateManager.new : AudioStateManager :=
  { channels := [], user_channels := [] }

/-- `AudioStateManager::add_user_to_channel`: removes the user from the
previous channel if any, then inserts a fresh `AudioUserState` into the
(possibly new) channel and updates the user-channel index. -/
def AudioStateManager.add_user_to_channel (m : AudioStateManager)
    (user_id username channel_id : String) (socket_addr : Nat) (role : Role)
    (now : Nat) : AudioStateManager :=
  let m1 :=
    match mapFind user_id m.user_channels with
    | some prev =>
      match mapFind prev m.channels with
      | some ch => { m with channels := mapInsert prev (ch.remove_user user_id now).1 m.channels }
      | none => m
    | none => m
  let ch := (mapFind channel_id m1.channels).getD (ChannelState.new channel_id now)
  let user := AudioUserState.new user_id username channel_id socket_addr role now
  { channels := mapInsert channel_id (ch.add_user user now) m1.channels
    user_channels := mapInsert user_id channel_id m1.user_channels }

/-- `AudioStateManager::remove_user_from_channel`, removing the channel
itself when it becomes empty. -/
def AudioStateManager.remove_user_from_channel (m : AudioStateManager) (user_id : String)
    (now : Nat) : AudioStateManager :=
  match mapFind user_id m.user_channels with
  | some channel_id =>
    let uc := mapRemove user_id m.user_channels
    match mapFind channel_id m.channels with
    | some ch =>
      let ch2 := (ch.remove_user user_id now).1
      if ch2.is_empty then
        { channels := mapRemove channel_id m.channels, user_channels := uc }
      else
        { channels := mapInsert channel_id ch2 m.channels, user_channels := uc }
    | none => { m with user_channels := uc }
  | none => m

/-- `AudioStateManager::get_user_channel`. -/
def AudioStateManager.get_user_channel (m : AudioStateManager) (user_id : String) :
    Option String :=
  mapFind user_id m.user_channels

/-- `AudioStateManager::get_channel`. -/
def AudioStateManager.get_channel (m : AudioStateManager) (channel_id : String) :
    Option ChannelState :=
  mapFind channel_id m.channels

/-- `AudioStateManager::get_user_by_socket`: scans the channels and
returns the channel id together with a clone of the user state. -/
def AudioStateManager.get_user_by_socket (m : AudioStateManager) (addr : Nat) :
    Option (String × AudioUserState) :=
  m.channels.findSome? (fun p => (p.2.get_user_by_socket addr).map (fun u => (p.2.channel_id, u)))

/-- `AudioStateManager::set_user_mute`. -/
def AudioStateManager.set_user_mute (m : AudioStateManager) (user_id : String)
    (muted : Bool) (now : Nat) : AudioStateManager × Bool :=
  match m.get_user_channel user_id with
  | some channel_id =>
    match mapFind channel_id m.channels with
    | some ch =>
      let r := ch.set_user_mute user_id muted now
      ({ m with channels := mapInsert channel_id r.1 m.channels }, r.2)
    | none => (m, false)
  | none => (m, false)

/-- `AudioStateManager::get_broadcast_targets`: every `(user_id,
socket_addr)` in the sender's channel except the sender, optionally
excluding muted users. -/
def AudioStateManager.get_broadcast_targets (m : AudioStateManager)
    (sender_user_id : String) (include_muted : Bool) : List (String × Nat) :=
  match m.get_user_channel sender_user_id with
  | some channel_id =>
    match m.get_channel channel_id with
    | some ch =>
      let users := if include_muted then ch.get_users_except sender_user_id
                   else ch.get_unmuted_users_except sender_user_id
      users.map (fun u => (u.user_id, u.socket_addr))
    | none => []
  | none => []

/-- `AudioStateManager::cleanup`: per-channel expiry sweep, pruning the
user-channel index for expired users and dropping channels that became
empty. -/
def AudioStateManager.cleanup (m : AudioStateManager) (now timeout : Nat) :
    AudioStateManager × List String :=
  let step := m.channels.map (fun p => (p.1, p.2.cleanup_expired_users now timeout))
  let channels1 := step.map (fun p => (p.1, p.2.1))
  let removed := (step.map (fun p => p.2.2)).flatten
  let user_channels1 := removed.foldl (fun uc uid => mapRemove uid uc) m.user_channels
  let channels2 := channels1.filter (fun p => !(p.2.is_empty))
  ({ channels := channels2, user_channels := user_channels1 }, removed)

/-- `VoiceConnectionState` from `server.rs`.  Note that it has no muted
flag: the fan-out task cannot see mute state. -/
structure VoiceConnectionState where
  last_sequence : Nat
  last_active : Nat
  channel_id : String
  user_id : String
deriving DecidableEq

/-- Result of classifying one inbound datagram, mirroring the task body
spawned in `AudioServer::start`. -/
inductive DispatchResult where
  /-- First byte 0x01, parsed as a `VoicePacket`, source address known:
  the frame goes to the sender's jitter buffer. -/
  | voiceToBuffer (user_id : String) (vp : VoicePacket)
  /-- First byte 0x01, parsed as a `VoicePacket`, but the source address
  is not an established voice connection: warn and drop. -/
  | voiceDropped (vp : VoicePacket)
  /-- First byte 0x01 but `VoicePacket::from_bytes` failed: warn and
  drop. -/
  | voiceMalformed (e : PacketError)
  /-- First byte not 0x01: parsed as a control `AudioPacket` and passed
  to `handle_packet`. -/
  | control (p : AudioPacket)
  /-- First byte not 0x01 and `AudioPacket::from_bytes` failed. -/
  | controlMalformed (e : PacketError)
deriving DecidableEq

/-- The classification step of the receive loop in `AudioServer::start`:
any non-empty datagram whose first byte is `VOICE_PACKET_TYPE` is parsed
as a `VoicePacket` (regardless of whether the source address has
completed a handshake); everything else is parsed as a control
`AudioPacket`. -/
def classifyDatagram (voice_connections : List (Nat × VoiceConnectionState))
    (addr : Nat) (packet_data : List Nat) : DispatchResult :=
  if packet_data ≠ [] ∧ packet_data.headD 0 = VoicePacket.VOICE_PACKET_TYPE then
    match VoicePacket.from_bytes packet_data with
    | Except.ok vp =>
      match mapFind addr voice_connections with
      | some st => DispatchResult.voiceToBuffer st.user_id vp
      | none => DispatchResult.voiceDropped vp
    | Except.error e => DispatchResult.voiceMalformed e
  else
    match AudioPacket.from_bytes packet_data with
    | Except.ok p => DispatchResult.control p
    | Except.error e => DispatchResult.controlMalformed e

/-- One iteration of the fan-out tick for one `(user_id, buffer)` pair:
look up the sender's channel in `voice_connections`, pop the next
in-order entry, rebuild the voice frame, and send one copy to every
other connection in the same channel (there is no mute check —
`VoiceConnectionState` has no muted flag).  Returns the datagrams sent
and the updated buffer. -/
def fanoutSendsFor (connections : List (Nat × VoiceConnectionState))
    (user_id : String) (b : JitterBuffer) : List (Nat × List Nat) × JitterBuffer :=
  match connections.find? (fun p => decide (p.2.user_id = user_id)) with
  | none => ([], b)
  | some conn =>
    match b.pop_next with
    | (some entry, b2) =>
      let voice_packet : VoicePacket :=
        { packet_type := VoicePacket.VOICE_PACKET_TYPE
          sequence_number := entry.sequence_number
          timestamp := entry.timestamp
          payload := entry.payload }
      let packet_data := voice_packet.to_bytes
      let dests := connections.filter
        (fun q => decide (q.2.channel_id = conn.2.channel_id) && decide (q.2.user_id ≠ user_id))
      (dests.map (fun q => (q.1, packet_data)), b2)
    | (none, b2) => ([], b2)

/-- `AuthError` from `auth.rs`. -/
inductive AuthError where
  | InvalidToken
  | SessionNotFound
  | SessionExpired
  | UserNotFound
  | PermissionDenied
  | ChannelNotFound
  | NotChannelMember
  | UserBanned
deriving DecidableEq

/-- `AudioSession` from `auth.rs`. -/
structure AudioSession where
  user_id : String
  username : String
  roles : List String
  authenticated_at : Nat
  last_activity : Nat
deriving DecidableEq

/-- `PendingHandshake` from `server.rs`. -/
structure PendingHandshake where
  user_id : String
  channel_id : String
  started_at : Nat
deriving DecidableEq

/-- The string-level view of the fields of a handshake `AudioPacket`
that `handle_handshake` consumes: the JSON body `(token, channel_id)` if
present, the legacy raw token if present, and `header.channel_id_str()`. -/
structure HandshakeView where
  handshake_data : Option (String × String)
  jwt_token : Option String
  header_channel_id : String
deriving DecidableEq

/-- The state touched by `handle_handshake`, plus the datagrams it
writes to the socket. -/
structure HandshakeOutcome where
  pending : List (Nat × PendingHandshake)
  voice_connections : List (Nat × VoiceConnectionState)
  jitter_buffers : List (String × JitterBuffer)
  sent : List (Nat × List Nat)
deriving DecidableEq

/-- The body of `AudioServer::handle_handshake` after the retry check:
extract `(token, channel_id)`, call `authenticate_with_channel`, and on
success record the pending handshake, the voice connection and a fresh
jitter buffer.  The source then builds `AudioPacket::ack(user, channel,
0)` and its bytes but never writes them to the socket (its own comment:
"We don't have socket here … For now, we'll just log"), so `sent` is
always empty. -/
def handshakeAuthPhase (auth : String → String → Except AuthError AudioSession)
    (pending : List (Nat × PendingHandshake))
    (voice_connections : List (Nat × VoiceConnectionState))
    (jitter_buffers : List (String × JitterBuffer))
    (addr now : Nat) (packet : HandshakeView) : Except String HandshakeOutcome :=
  let tc : Option (String × String) :=
    match packet.handshake_data with
    | some h => some h
    | none =>
      match packet.jwt_token with
      | some t => some (t, packet.header_channel_id)
      | none => none
  match tc with
  | none => Except.error "Missing handshake data"
  | some (token, channel_id) =>
    match auth token channel_id with
    | Except.error AuthError.InvalidToken => Except.error "Invalid JWT token"
    | Except.error AuthError.ChannelNotFound => Except.error "Channel not found"
    | Except.error AuthError.NotChannelMember => Except.error "User not a member of channel"
    | Except.error AuthError.UserBanned => Except.error "User banned from channel"
    | Except.error _ => Except.error "Authentication error"
    | Except.ok session =>
      let pending2 := mapInsert addr
        { user_id := session.user_id, channel_id := channel_id, started_at := now } pending
      let vc2 := mapInsert addr
        { last_sequence := 0, last_active := now
          channel_id := channel_id, user_id := session.user_id } voice_connections
      let bufs2 := mapInsert session.user_id (JitterBuffer.new 20 400) jitter_buffers
      Except.ok
        { pending := pending2, voice_connections := vc2, jitter_buffers := bufs2, sent := [] }

/-- `AudioServer::handle_handshake`: a pending handshake for the same
address within the 5 s deadline makes the packet a silently ignored
retry; a pending record past the deadline is discarded before the
authentication phase runs. -/
def handle_handshake (auth : String → String → Except AuthError AudioSession)
    (pending : List (Nat × PendingHandshake))
    (voice_connections : List (Nat × VoiceConnectionState))
    (jitter_buffers : List (String × JitterBuffer))
    (addr now : Nat) (packet : HandshakeView) : Except String HandshakeOutcome :=
  match mapFind addr pending with
  | some existing =>
    if now - existing.started_at > 5000 then
      handshakeAuthPhase auth (mapRemove addr pending) voice_connections jitter_buffers
        addr now packet
    else
      Except.ok
        { pending := pending, voice_connections := voice_connections
          jitter_buffers := jitter_buffers, sent := [] }
  | none =>
    handshakeAuthPhase auth pending voice_connections jitter_buffers addr now packet

/-- `AudioServer::handle_heartbeat`: requires a live auth session for
the header's user id, then calls `update_activity` on the value returned
by `get_user_by_socket` — which is a clone of the stored
`AudioUserState`, so the shared state is left untouched — and sends no
response.  Returns the (unchanged) manager. -/
def handle_heartbeat (sessions : String → Option AudioSession)
    (m : AudioStateManager) (addr now : Nat) (header_user_id : String) :
    Except String AudioStateManager :=
  match sessions header_user_id with
  | none => Except.error "Session not found"
  | some _ =>
    let _refreshed_clone := (m.get_user_by_socket addr).map
      (fun p => p.2.update_activity now)
    Except.ok m

/-- Strict ordering of jitter-buffer entries by sequence number. -/
def entryLt (a b : JitterBufferEntry) : Prop :=
  a.sequence_number < b.sequence_number

instance : DecidableRel entryLt := by
  intro a b
  unfold entryLt
  infer_instance

instance : DecidablePred JBOp.valid := by
  intro op
  cases op <;> simp only [JBOp.valid] <;> infer_instance

/-- Well-formedness of a jitter buffer: entries strictly increasing in
sequence number, every entry's sequence above `last_played_sequence` and
within `u32` range. -/
def JitterBuffer.Inv (b : JitterBuffer) : Prop :=
  b.entries.Pairwise entryLt ∧
  ∀ e ∈ b.entries, b.last_played_sequence < e.sequence_number ∧ e.sequence_number < 2 ^ 32

/-- A legacy (raw-token) handshake control frame: user id `user1`,
channel id `c`, token `tok.abc`. -/
def c1HandshakePacket : AudioPacket :=
  { header := PacketHeader.new PacketType.Handshake 0 [117, 115, 101, 114, 49] [99] 0
    jwt_token := some [116, 111, 107, 46, 97, 98, 99]
    handshake_data := none
    audio_data := none
    mute_state := none
    error_message := none }

/-- The wire bytes of `c1HandshakePacket`. -/
def c1Bytes : List Nat :=
  ((c1HandshakePacket.to_bytes).toOption).getD []

/-- An authenticator that accepts token `tok` for channel `c` as user
`u1` and rejects everything else. -/
def c2Auth : String → String → Except AuthError AudioSession := fun token channel_id =>
  if token = "tok" ∧ channel_id = "c" then
    Except.ok
      { user_id := "u1", username := "u1", roles := ["user"]
        authenticated_at := 1000, last_activity := 1000 }
  else
    Except.error AuthError.InvalidToken

/-- A JSON-form handshake for channel `c` with token `tok`. -/
def c2View : HandshakeView :=
  { handshake_data := some ("tok", "c"), jwt_token := none, header_channel_id := "c" }

/-- Two established voice connections in channel `c`: user `u1` at
socket 1 and user `u2` at socket 2. -/
def c3Conns : List (Nat × VoiceConnectionState) :=
  [(1, { last_sequence := 0, last_active := 0, channel_id := "c", user_id := "u1" }),
   (2, { last_sequence := 0, last_active := 0, channel_id := "c", user_id := "u2" })]

/-- The corresponding channel state, with `u2` muted through
`set_user_mute`. -/
def c3Channel : ChannelState :=
  ((((ChannelState.new "c" 0).add_user (AudioUserState.new "u1" "u1" "c" 1 Role.Member 0) 0).add_user
      (AudioUserState.new "u2" "u2" "c" 2 Role.Member 0) 0).set_user_mute "u2" true 0).1

/-- Sender `u1`'s jitter buffer holding the next in-order frame. -/
def c3Buffer : JitterBuffer :=
  { entries := [{ sequence_number := 1, timestamp := 0, payload := [], received_at := 0 }]
    last_played_sequence := 0, max_size := 20, window_ms := 400 }

/-- The voice frame the fan-out tick rebuilds from that entry. -/
def c3SentBytes : List Nat :=
  VoicePacket.to_bytes
    { packet_type := VoicePacket.VOICE_PACKET_TYPE, sequence_number := 1, timestamp := 0, payload := [] }

/-- A manager with `u1` (last activity 0) and `u2` (last activity 400)
in channel `c`. -/
def c4Manager : AudioStateManager :=
  ((AudioStateManager.new.add_user_to_channel "u1" "u1" "c" 1 Role.Member 0).add_user_to_channel
    "u2" "u2" "c" 2 Role.Member 400)

/-- `c4Manager` after the expiry sweep at time 501 with a 300 timeout
(`u1` expired, `u2` fresh). -/
def c4After : AudioStateManager :=
  (c4Manager.cleanup 501 300).1

/-- The insert sequence of the C5 counterexample: 21 entries with
increasing sequence numbers and timestamps 1000 ms apart. -/
def c5Ops : List JBOp :=
  (List.range 21).map (fun i =>
    JBOp.ins { sequence_number := i + 1, timestamp := 1000 * (i + 1), payload := [], received_at := 0 })

/-- A full buffer (`max_size = 1`) whose front entry has timestamp
1000. -/
def c5Buffer : JitterBuffer :=
  { entries := [{ sequence_number := 5, timestamp := 1000, payload := [], received_at := 0 }]
    last_played_sequence := 0, max_size := 1, window_ms := 400 }

/-- An entry within the front window (timestamp 1100 < 1000 + 400). -/
def c5Entry : JitterBufferEntry :=
  { sequence_number := 6, timestamp := 1100, payload := [], received_at := 0 }

/-- A `SetMute(true)` control frame from `user123` in `chan` — the same
shape as the repository's own `test_set_mute_packet_serialization`. -/
def c6MutePacket : AudioPacket :=
  { header := PacketHeader.new PacketType.SetMute 0
      [117, 115, 101, 114, 49, 50, 51] [99, 104, 97, 110] 0
    jwt_token := none
    handshake_data := none
    audio_data := none
    mute_state := some true
    error_message := none }

/-- The wire bytes of `c6MutePacket`. -/
def c6Bytes : List Nat :=
  ((c6MutePacket.to_bytes).toOption).getD []

/-- A manager holding `u1` in channel `c` with last activity 0. -/
def c8Manager : AudioStateManager :=
  AudioStateManager.new.add_user_to_channel "u1" "u1" "c" 1 Role.Member 0

/-- An auth session table knowing `u1`. -/
def c8Sessions : String → Option AudioSession := fun uid =>
  if uid = "u1" then
    some { user_id := "u1", username := "u1", roles := [], authenticated_at := 0, last_activity := 0 }
  else
    none

/-- The witness connection table for the fan-out no-self-forward
property (same shape as `c3Conns`). -/
def c9Conns : List (Nat × VoiceConnectionState) := c3Conns

/-- The sender entry of `c9Conns`. -/
def c9SenderConn : Nat × VoiceConnectionState :=
  (1, { last_sequence := 0, last_active := 0, channel_id := "c", user_id := "u1" })

/-- A buffer whose front frame is ready to be popped. -/
def c9Buffer : JitterBuffer := c3Buffer

/-- A two-user manager used to instantiate the broadcast-target half of
the no-self-forward property. -/
def c9Manager : AudioStateManager := c4Manager

/-- A single valid insert, used to instantiate the reachable-state
invariant. -/
def c10Ops : List JBOp :=
  [JBOp.ins { sequence_number := 1, timestamp := 0, payload := [], received_at := 0 }]

/-- Every member of a successful ordered insertion is the new entry or
an old member. -/
theorem insertSorted_mem {e : JitterBufferEntry} :
    ∀ {l l' : List JitterBufferEntry}, insertSorted e l = some l' →
      ∀ y ∈ l', y = e ∨ y ∈ l := by
  intro l
  induction l with
  | nil =>
    intro l' h y hy
    simp only [insertSorted, Option.some.injEq] at h
    subst h
    simp only [List.mem_singleton] at hy
    exact Or.inl hy
  | cons x xs ih =>
    intro l' h y hy
    by_cases h1 : e.sequence_number < x.sequence_number
    · simp only [insertSorted, if_pos h1, Option.some.injEq] at h
      subst h
      rcases List.mem_cons.mp hy with rfl | hy
      · exact Or.inl rfl
      · exact Or.inr hy
    · by_cases h2 : e.sequence_number = x.sequence_number
      · simp only [insertSorted, if_neg h1, if_pos h2] at h
        exact Option.noConfusion h
      · simp only [insertSorted, if_neg h1, if_neg h2, Option.map_eq_some'] at h
        obtain ⟨l'', hl'', rfl⟩ := h
        rcases List.mem_cons.mp hy with rfl | hy
        · exact Or.inr (List.mem_cons_self _ _)
        · rcases ih hl'' y hy with hye | hyxs
          · exact Or.inl hye
          · exact Or.inr (List.mem_cons_of_mem x hyxs)

/-- Ordered insertion preserves sortedness by sequence number. -/
theorem insertSorted_pairwise {e : JitterBufferEntry} :
    ∀ {l l' : List JitterBufferEntry}, l.Pairwise entryLt →
      insertSorted e l = some l' → l'.Pairwise entryLt := by
  intro l
  induction l with
  | nil =>
    intro l' _ h
    simp only [insertSorted, Option.some.injEq] at h
    subst h
    exact List.pairwise_singleton entryLt e
  | cons x xs ih =>
    intro l' hp h
    obtain ⟨hx, hxs⟩ := List.pairwise_cons.mp hp
    by_cases h1 : e.sequence_number < x.sequence_number
    · simp only [insertSorted, if_pos h1, Option.some.injEq] at h
      subst h
      refine List.pairwise_cons.mpr ⟨?_, hp⟩
      intro y hy
      rcases List.mem_cons.mp hy with rfl | hy
      · exact h1
      · exact Nat.lt_trans h1 (hx y hy)
    · by_cases h2 : e.sequence_number = x.sequence_number
      · simp only [insertSorted, if_neg h1, if_pos h2] at h
        exact Option.noConfusion h
      · simp only [insertSorted, if_neg h1, if_neg h2, Option.map_eq_some'] at h
        obtain ⟨l'', hl'', rfl⟩ := h
        refine List.pairwise_cons.mpr ⟨?_, ih hxs hl''⟩
        intro y hy
        rcases insertSorted_mem hl'' y hy with rfl | hyxs
        · exact Nat.lt_of_le_of_ne (Nat.le_of_not_lt h1) (fun hxe => h2 hxe.symm)
        · exact hx y hyxs

/-- The cleanup loop only drops entries. -/
theorem cleanupFront_mem {now m : Nat} :
    ∀ {l : List JitterBufferEntry}, ∀ y ∈ cleanupFront now m l, y ∈ l := by
  intro l
  induction l with
  | nil => intro y hy; simp [cleanupFront] at hy
  | cons x xs ih =>
    intro y hy
    by_cases hdrop : now - x.received_at > m
    · simp only [cleanupFront, if_pos hdrop] at hy
      exact List.mem_cons_of_mem x (ih y hy)
    · simp only [cleanupFront, if_neg hdrop] at hy
      exact hy

/-- The cleanup loop preserves sortedness. -/
theorem cleanupFront_pairwise {now m : Nat} :
    ∀ {l : List JitterBufferEntry}, l.Pairwise entryLt →
      (cleanupFront now m l).Pairwise entryLt := by
  intro l
  induction l with
  | nil => intro _; simp [cleanupFront]
  | cons x xs ih =>
    intro hp
    obtain ⟨hx, hxs⟩ := List.pairwise_cons.mp hp
    by_cases hdrop : now - x.received_at > m
    · simpa only [cleanupFront, if_pos hdrop] using ih hxs
    · simpa only [cleanupFront, if_neg hdrop] using hp

/-- The empty buffer is well-formed. -/
theorem inv_new (max_size window_ms : Nat) : (JitterBuffer.new max_size window_ms).Inv :=
  ⟨List.Pairwise.nil, by intro e he; simp [JitterBuffer.new] at he⟩

/-- `insert` preserves well-formedness for `u32` sequence numbers. -/
theorem inv_insert {b : JitterBuffer} {e : JitterBufferEntry}
    (hseq : e.sequence_number < 2 ^ 32) (h : b.Inv) : ((b.insert e).1).Inv := by
  obtain ⟨hp, hall⟩ := h
  unfold JitterBuffer.insert
  by_cases h1 : e.sequence_number ≤ b.last_played_sequence
  · simpa only [if_pos h1] using ⟨hp, hall⟩
  · simp only [if_neg h1]
    split
    · exact ⟨hp, hall⟩
    · cases hins : insertSorted e b.entries with
      | none => simp only [hins]; exact ⟨hp, hall⟩
      | some l =>
        simp only [hins]
        refine ⟨insertSorted_pairwise hp hins, ?_⟩
        intro y hy
        rcases insertSorted_mem hins y hy with rfl | hmem
        · exact ⟨Nat.lt_of_not_le h1, hseq⟩
        · exact hall y hmem

/-- `pop_next` preserves well-formedness. -/
theorem inv_pop {b : JitterBuffer} (h : b.Inv) : ((b.pop_next).2).Inv := by
  obtain ⟨hp, hall⟩ := h
  unfold JitterBuffer.pop_next
  cases hb : b.entries with
  | nil => exact ⟨hp, hall⟩
  | cons x rest =>
    rw [hb] at hp hall
    obtain ⟨hx, hrest⟩ := List.pairwise_cons.mp hp
    by_cases hseq : x.sequence_number = b.last_played_sequence + 1
    · simp only [if_pos hseq]
      refine ⟨hrest, ?_⟩
      intro y hy
      exact ⟨hx y hy, (hall y (List.mem_cons_of_mem x hy)).2⟩
    · simp only [if_neg hseq]
      rw [← hb] at hp hall
      exact ⟨hp, hall⟩

/-- `cleanup` preserves well-formedness. -/
theorem inv_cleanup {b : JitterBuffer} (now m : Nat) (h : b.Inv) :
    (b.cleanup now m).Inv := by
  obtain ⟨hp, hall⟩ := h
  refine ⟨cleanupFront_pairwise hp, ?_⟩
  intro y hy
  exact hall y (cleanupFront_mem y hy)

/-- Any valid operation preserves well-formedness. -/
theorem inv_applyOp {b : JitterBuffer} {op : JBOp} (hv : op.valid) (h : b.Inv) :
    (b.applyOp op).Inv := by
  cases op with
  | ins e => exact inv_insert hv h
  | pop => exact inv_pop h
  | clean now m => exact inv_cleanup now m h

/-- Any valid operation sequence preserves well-formedness. -/
theorem inv_runOps :
    ∀ {ops : List JBOp} {b : JitterBuffer}, (∀ op ∈ ops, op.valid) → b.Inv →
      (b.runOps ops).Inv := by
  intro ops
  induction ops with
  | nil => intro b _ h; exact h
  | cons op rest ih =>
    intro b hv h
    exact ih (fun o ho => hv o (List.mem_cons_of_mem _ ho))
      (inv_applyOp (hv op (List.mem_cons_self _ _)) h)

/-- C7: for every jitter buffer and every operation (insert, pop_next,
cleanup), the `last_played_sequence` is left either unchanged or
strictly larger — it never decreases. -/
theorem C7_last_played_monotone (b : JitterBuffer) (op : JBOp) :
    (b.applyOp op).last_played_sequence = b.last_played_sequence ∨
    b.last_played_sequence < (b.applyOp op).last_played_sequence := by
  cases op with
  | ins e =>
    left
    show ((b.insert e).1).last_played_sequence = b.last_played_sequence
    unfold JitterBuffer.insert
    by_cases h1 : e.sequence_number ≤ b.last_played_sequence
    · rw [if_pos h1]
    · simp only [if_neg h1]
      split
      · rfl
      · cases insertSorted e b.entries <;> rfl
  | pop =>
    show ((b.pop_next).2).last_played_sequence = b.last_played_sequence ∨
      b.last_played_sequence < ((b.pop_next).2).last_played_sequence
    unfold JitterBuffer.pop_next
    cases b.entries with
    | nil => exact Or.inl rfl
    | cons x rest =>
      by_cases hx : x.sequence_number = b.last_played_sequence + 1
      · right
        simp only [if_pos hx, hx]
        exact Nat.lt_succ_self _
      · left
        simp only [if_neg hx]
  | clean now m => exact Or.inl rfl

/-- C5 counterexample: starting from the empty default buffer
(`max_size = 20`), the 21st insert of a fresh-enough entry is accepted,
so the entry count exceeds `max_size`. -/
theorem C5_counterexample :
    (JitterBuffer.new 20 400).max_size = 20 ∧
    ((JitterBuffer.new 20 400).runOps c5Ops).entries.length = 21 := by
  exact ⟨rfl, by decide⟩

/-- C5 (amended): whenever the buffer already holds at least `max_size`
entries and the new entry's timestamp is older than the front entry's
timestamp plus the window, `insert` rejects the entry and leaves the
buffer unchanged.  (The count itself can exceed `max_size`, as the
counterexample shows.) -/
theorem C5_full_window_insert_rejected (b : JitterBuffer) (e : JitterBufferEntry)
    (hfull : b.entries.length ≥ b.max_size)
    (hold : e.timestamp < (((b.entries.head?).map (fun x => x.timestamp)).getD 0) + b.window_ms) :
    b.insert e = (b, false) := by
  unfold JitterBuffer.insert
  by_cases h1 : e.sequence_number ≤ b.last_played_sequence
  · rw [if_pos h1]
  · simp only [if_neg h1]
    rw [if_pos ⟨hfull, hold⟩]

/-- Witness for the amended C5 theorem at a concrete full buffer. -/
theorem C5_full_window_insert_rejected_witness :
    c5Buffer.entries.length ≥ c5Buffer.max_size ∧
    c5Entry.timestamp <
      (((c5Buffer.entries.head?).map (fun x => x.timestamp)).getD 0) + c5Buffer.window_ms ∧
    c5Buffer.insert c5Entry = (c5Buffer, false) :=
  ⟨by decide, by decide, C5_full_window_insert_rejected c5Buffer c5Entry (by decide) (by decide)⟩

/-- C10: in every state reachable from an empty buffer by inserts of
`u32`-sequence entries, pops and cleanups, the entries are strictly
increasing in sequence number (no duplicates), every entry's sequence
number exceeds `last_played_sequence`, and whenever the buffer is
non-empty (the only case in which `pop_next` evaluates
`last_played_sequence + 1`) that sum is still within `u32` range, so the
addition cannot overflow. -/
theorem C10_reachable_buffer_wellformed (max_size window_ms : Nat) (ops : List JBOp)
    (hv : ∀ op ∈ ops, op.valid) :
    ((JitterBuffer.new max_size window_ms).runOps ops).entries.Pairwise entryLt ∧
    (∀ e ∈ ((JitterBuffer.new max_size window_ms).runOps ops).entries,
      ((JitterBuffer.new max_size window_ms).runOps ops).last_played_sequence <
        e.sequence_number) ∧
    (((JitterBuffer.new max_size window_ms).runOps ops).entries ≠ [] →
      ((JitterBuffer.new max_size window_ms).runOps ops).last_played_sequence + 1 < 2 ^ 32) := by
  obtain ⟨hp, hall⟩ := inv_runOps hv (inv_new max_size window_ms)
  refine ⟨hp, fun e he => (hall e he).1, ?_⟩
  intro hne
  cases hb : ((JitterBuffer.new max_size window_ms).runOps ops).entries with
  | nil => exact absurd hb hne
  | cons x rest =>
    have hx := hall x (by rw [hb]; exact List.mem_cons_self _ _)
    exact Nat.lt_of_le_of_lt (Nat.succ_le_of_lt hx.1) hx.2

/-- Witness for C10 at a concrete operation sequence. -/
theorem C10_reachable_buffer_wellformed_witness :
    (∀ op ∈ c10Ops, op.valid) ∧
    (((JitterBuffer.new 20 400).runOps c10Ops).entries ≠ [] →
      ((JitterBuffer.new 20 400).runOps c10Ops).last_played_sequence + 1 < 2 ^ 32) :=
  ⟨by decide, (C10_reachable_buffer_wellformed 20 400 c10Ops (by decide)).2.2⟩

/-- C9: no frame is ever forwarded to the sender's own session — in the
fan-out tick every datagram goes to an address whose connection entry
belongs to a different user (so never to the sender's session, whose
entry carries the sender's user id, given that the connection table maps
each address to one entry), and in the legacy Audio broadcast path no
target carries the sender's user id. -/
theorem C9_no_self_forward :
    (∀ (connections : List (Nat × VoiceConnectionState)) (user_id : String)
       (b : JitterBuffer) (p : Nat × VoiceConnectionState),
       (connections.map Prod.fst).Nodup →
       p ∈ connections → p.2.user_id = user_id →
       ∀ s ∈ (fanoutSendsFor connections user_id b).1, s.1 ≠ p.1) ∧
    (∀ (m : AudioStateManager) (sender_user_id : String) (include_muted : Bool),
       ∀ t ∈ m.get_broadcast_targets sender_user_id include_muted, t.1 ≠ sender_user_id) := by
  constructor
  · intro connections user_id b p hnd hp hpu s hs
    unfold fanoutSendsFor at hs
    cases hfind : connections.find? (fun q => decide (q.2.user_id = user_id)) with
    | none => rw [hfind] at hs; simp at hs
    | some conn =>
      rw [hfind] at hs
      cases hpop : b.pop_next with
      | mk popped b2 =>
        cases popped with
        | none => rw [hpop] at hs; simp at hs
        | some entry =>
          rw [hpop] at hs
          simp only [List.mem_map, List.mem_filter] at hs
          obtain ⟨q, ⟨hqmem, hqcond⟩, rfl⟩ := hs
          simp only [Bool.and_eq_true, decide_eq_true_eq] at hqcond
          intro hqp
          have hqeq : q = p := List.inj_on_of_nodup_map hnd hqmem hp hqp
          exact hqcond.2 (hqeq ▸ hpu)
  · intro m sender_user_id include_muted t ht
    unfold AudioStateManager.get_broadcast_targets at ht
    split at ht
    · split at ht
      · simp only [List.mem_map] at ht
        obtain ⟨u, hu, rfl⟩ := ht
        by_cases hm : include_muted = true
        · rw [if_pos hm] at hu
          unfold ChannelState.get_users_except at hu
          simp only [List.mem_filter, decide_eq_true_eq] at hu
          exact hu.2
        · rw [if_neg hm] at hu
          unfold ChannelState.get_unmuted_users_except at hu
          simp only [List.mem_filter, Bool.and_eq_true, decide_eq_true_eq] at hu
          exact hu.2.1
      · simp at ht
    · simp at ht

/-- Witness for C9 at a concrete connection table and manager. -/
theorem C9_no_self_forward_witness :
    ((c9Conns.map Prod.fst).Nodup ∧ c9SenderConn ∈ c9Conns ∧
      c9SenderConn.2.user_id = "u1" ∧
      (2, c3SentBytes) ∈ (fanoutSendsFor c9Conns "u1" c9Buffer).1 ∧
      (2 : Nat) ≠ c9SenderConn.1) ∧
    (("u2", (2 : Nat)) ∈ c9Manager.get_broadcast_targets "u1" true ∧ "u2" ≠ "u1") :=
  ⟨⟨by decide, by decide, by decide, by decide,
      C9_no_self_forward.1 c9Conns "u1" c9Buffer c9SenderConn (by decide) (by decide)
        (by decide) (2, c3SentBytes) (by decide)⟩,
    ⟨by decide,
      C9_no_self_forward.2 c9Manager "u1" true ("u2", 2) (by decide)⟩⟩

/-- C1: a well-formed control-family handshake frame (first byte 0x01)
arriving from an address with no established voice connection is not
parsed as a control-family handshake: the dispatch sends every
first-byte-0x01 datagram down the voice path, where this one fails the
voice-frame length check and is dropped. -/
theorem C1_unauthenticated_handshake_misdispatched :
    c1HandshakePacket.header.packet_type = PacketType.Handshake ∧
    AudioPacket.to_bytes c1HandshakePacket = Except.ok c1Bytes ∧
    c1Bytes.headD 0 = VoicePacket.VOICE_PACKET_TYPE ∧
    classifyDatagram [] 7 c1Bytes =
      DispatchResult.voiceMalformed (PacketError.InvalidVoicePacket "Payload length mismatch") := by
  refine ⟨rfl, rfl, rfl, ?_⟩
  decide

/-- C2: a handshake that succeeds (the authenticator accepts the token
and the membership check passes, so the session, pending record, voice
connection and jitter buffer are all created) writes nothing to the
socket — in particular no `Ack(seq=0)` frame is emitted to `addr`. -/
theorem C2_successful_handshake_sends_no_ack :
    handle_handshake c2Auth [] [] [] 7 1000 c2View =
      Except.ok
        { pending := [(7, { user_id := "u1", channel_id := "c", started_at := 1000 })]
          voice_connections :=
            [(7, { last_sequence := 0, last_active := 1000, channel_id := "c", user_id := "u1" })]
          jitter_buffers := [("u1", JitterBuffer.new 20 400)]
          sent := [] } := by
  rfl

/-- C3: on a fan-out tick, the frame popped from `u1`'s jitter buffer is
sent to `u2`'s socket even though `u2`'s muted flag is set in the channel
state — the fan-out loop filters only on channel and sender, never on
the muted flag. -/
theorem C3_muted_session_receives_copy :
    (mapFind "u2" c3Channel.users).map AudioUserState.is_muted = some true ∧
    (fanoutSendsFor c3Conns "u1" c3Buffer).1 = [(2, c3SentBytes)] := by
  exact ⟨rfl, rfl⟩

/-- C4: after adding `u1` and `u2` and running the expiry sweep that
removes `u1`, the channel still exists (it holds `u2`) but its
`user_socket_map` still maps socket 1 to `u1` while `users` no longer
contains `u1` — the two indexes are inconsistent. -/
theorem C4_cleanup_leaves_stale_socket_entry :
    (c4After.get_channel "c").map (fun ch => ch.users.map Prod.fst) = some ["u2"] ∧
    (c4After.get_channel "c").map
      (fun ch => (mapFind "u1" ch.users, mapFind 1 ch.user_socket_map)) =
        some (none, some "u1") := by
  exact ⟨rfl, rfl⟩

/-- C6: the control-frame codec does not round-trip: `to_bytes` of a
well-formed `SetMute` frame succeeds, but `from_bytes` on its own output
always fails with an I/O error, because the serialized header is 21
bytes while `PacketHeader::SIZE` is 16, so the header parse reads past
the 16-byte slice `from_bytes` hands it. -/
theorem C6_control_roundtrip_fails :
    AudioPacket.to_bytes c6MutePacket = Except.ok c6Bytes ∧
    (PacketHeader.to_bytes c6MutePacket.header).length = 21 ∧
    PacketHeader.SIZE = 16 ∧
    AudioPacket.from_bytes c6Bytes = Except.error PacketError.Io := by
  exact ⟨rfl, rfl, rfl, rfl⟩

/-- C8: a heartbeat from `u1` (who has a live auth session and a state
entry with last activity 0) succeeds and sends no response, but leaves
the shared state table unchanged — `update_activity` is applied to the
clone returned by `get_user_by_socket` — so the expiry sweep at time 301
with a 300 timeout still removes `u1` (emptying and dropping channel
`c`) despite the heartbeat at time 250. -/
theorem C8_heartbeat_does_not_refresh_activity :
    handle_heartbeat c8Sessions c8Manager 1 250 "u1" = Except.ok c8Manager ∧
    ((c8Manager.cleanup 301 300).1).get_channel "c" = none := by
  exact ⟨rfl, rfl⟩

end WhisperFleet
